import Mathlib

/-!
Shallow embedding of `packages/ariakit/src/select/select-item.tsx` and proofs
about its state-derivation and event-dispatch logic.

The component under study is a select item: a selectable list item inside a
composite select/listbox/tree/grid control.  The embedding below models the
pure pieces of the file — the role resolver, the selection predicate, the item
descriptor builder, the click dispatcher and the hover activation guard — with
the shared-state mutations (`setValue`, `hide`) made observable as a trace of
effects returned by the click dispatcher.
-/

namespace SelectItem

/-- A mouse event as seen by the handlers: `defaultPrevented` is the flag that
`event.preventDefault()` sets, and `button` stands in for the remaining event
data that a caller-supplied predicate may inspect. -/
structure MouseEvent where
  defaultPrevented : Bool
  button : Nat
deriving DecidableEq, Repr

/-- The slice of the shared select state (`SelectState`) that this component
reads: `value` is the current selection and `mounted` records whether the
popup is currently shown.  The mutators `setValue` and `hide` are modelled as
observable effects (`Effect`), and the content element's popup role is passed
to the role resolver directly. -/
structure SelectState where
  value : String
  mounted : Bool
deriving DecidableEq, Repr

/-- A base item record handed to `getItem` by the composite registry: `id`
stands for the fields that the shallow copy `{ ...item }` preserves, and
`value` is the field that the descriptor builder replaces. -/
structure Item where
  id : Option String
  value : Option String
deriving DecidableEq, Repr

/-- The `BooleanOrCallback` prop type (ariakit-utils/types): either a static
boolean or a predicate over the triggering event. -/
inductive BooleanOrCallback where
  | bool (b : Bool)
  | callback (f : MouseEvent → Bool)

/-- Modelled from the spec: `useBooleanEventCallback` (ariakit-utils/hooks, not
under src/) turns a boolean-or-callback prop into an event predicate — "Both
accept either a static boolean or a predicate over the triggering event,
evaluated fresh per click". -/
def useBooleanEventCallback : BooleanOrCallback → MouseEvent → Bool
  | .bool b, _ => b
  | .callback f, ev => f ev

/-- The fixed table `itemRoleByPopupRole` (lines 23–27): listbox → option,
tree → treeitem, grid → gridcell; a lookup outside the table yields nothing. -/
def itemRoleByPopupRole (popupRole : String) : Option String :=
  if popupRole = "listbox" then some "option"
  else if popupRole = "tree" then some "treeitem"
  else if popupRole = "grid" then some "gridcell"
  else none

/-- `getItemRole` (lines 29–33).  Modelled from the spec: `getPopupRole`
(ariakit-utils/dom, not under src/) reads the popup's configured role from the
content element, absent when no popup is attached; `getItemRole` returns no
role when the popup role is absent and otherwise looks up the fixed table.
An empty-string role is falsy in the source and `none` here; both yield no
role. -/
def getItemRole (popupRole : Option String) : Option String :=
  match popupRole with
  | none => none
  | some r => itemRoleByPopupRole r

/-- The derived selection flag (line 103):
`value != null && value === state?.value`. -/
def isSelected (value : Option String) (state : Option SelectState) : Bool :=
  match value, state with
  | some v, some s => v == s.value
  | _, _ => false

/-- The item descriptor builder `getItem` (lines 67–76): a shallow copy of the
base record with `value` cleared when `disabled`, then delegated to the caller
transform when one is supplied. -/
def getItem (disabled : Bool) (value : Option String)
    (getItemProp : Option (Item → Item)) (item : Item) : Item :=
  let nextItem : Item := { item with value := if disabled then none else value }
  match getItemProp with
  | some f => f nextItem
  | none => nextItem

/-- A dispatched side effect on the shared select state. -/
inductive Effect where
  | setValue (v : String)
  | hide
deriving DecidableEq, Repr

/-- Modelled from the spec: `useEventCallback` (ariakit-utils/hooks, not under
src/) wraps the optional caller click handler `props.onClick`; when none is
supplied the wrapper leaves the event untouched.  The handler may mutate the
event (in particular set `defaultPrevented`), modelled by returning the
updated event. -/
def runHandler (onClickProp : Option (MouseEvent → MouseEvent))
    (event : MouseEvent) : MouseEvent :=
  match onClickProp with
  | some f => f event
  | none => event

/-- The click dispatcher `onClick` (lines 82–101): run the caller handler
first, stop if the event is default-prevented, then dispatch
`state?.setValue(value)` when the `setValueOnClick` predicate holds and a
value is configured, and `state?.hide()` when the `hideOnClick` predicate
holds.  The returned list is the trace of shared-state calls in dispatch
order; the optional-chaining calls are skipped when no state is bound. -/
def onClick (onClickProp : Option (MouseEvent → MouseEvent))
    (setValueOnClickProp hideOnClickProp : MouseEvent → Bool)
    (value : Option String) (state : Option SelectState)
    (event : MouseEvent) : List Effect :=
  let ev := runHandler onClickProp event
  if ev.defaultPrevented then []
  else
    (match value, state with
      | some v, some _ =>
        if setValueOnClickProp ev then [Effect.setValue v] else []
      | _, _ => []) ++
    (match state with
      | some _ => if hideOnClickProp ev then [Effect.hide] else []
      | none => [])

/-- The click wiring of `useSelectItem` (lines 46–101): `hideOnClick` and
`setValueOnClick` default to `value != null` (lines 51–52), and both are run
through `useBooleanEventCallback` before reaching the dispatcher. -/
def useSelectItemOnClick (value : Option String)
    (hideOnClick setValueOnClick : Option BooleanOrCallback)
    (state : Option SelectState)
    (onClickProp : Option (MouseEvent → MouseEvent))
    (event : MouseEvent) : List Effect :=
  let hideOn := hideOnClick.getD (BooleanOrCallback.bool value.isSome)
  let setOn := setValueOnClick.getD (BooleanOrCallback.bool value.isSome)
  onClick onClickProp (useBooleanEventCallback setOn)
    (useBooleanEventCallback hideOn) value state event

/-- The hover activation guard (lines 130–142): the effective `focusOnHover`
predicate passed to the composite hover behavior returns false when the
configured predicate rejects the event, and otherwise requires
`!!state?.mounted`.  Modelled from the spec: the activation itself is
performed by `useCompositeHover` (composite/composite-hover, not under src/)
exactly when this effective predicate returns true. -/
def focusOnHover (focusOnHoverProp : MouseEvent → Bool)
    (state : Option SelectState) (event : MouseEvent) : Bool :=
  if !(focusOnHoverProp event) then false
  else
    match state with
    | some s => s.mounted
    | none => false

/-- Definition following the spec's words, for comparison with `getItemRole`:
"for all popup roles r ∈ {listbox, tree, grid}, roleResolver(r) = {option,
treeitem, gridcell} respectively; for any other or absent input, result is no
explicit role". -/
def roleResolverSpec (popupRole : Option String) : Option String :=
  if popupRole = some "listbox" then some "option"
  else if popupRole = some "tree" then some "treeitem"
  else if popupRole = some "grid" then some "gridcell"
  else none

end SelectItem

namespace SelectItem

/-- Claim C1: for every click on an item with a present configured value,
default click options, a bound shared state and a caller handler that does not
prevent default, the dispatcher invokes `setValue` with the configured value
and then `hide`, each exactly once and in that order.  (The click pipeline
does not read `disabled`, so the claim holds for `disabled = false` items in
particular.) -/
theorem claim_C1_click_sets_value_then_hides
    (v : String) (s : SelectState)
    (h : Option (MouseEvent → MouseEvent)) (ev : MouseEvent)
    (hnp : (runHandler h ev).defaultPrevented = false) :
    useSelectItemOnClick (some v) none none (some s) h ev
      = [Effect.setValue v, Effect.hide] := by
  simp [useSelectItemOnClick, onClick, useBooleanEventCallback, hnp]

/-- Witness for C1 at value "Apple", a bound state, no caller handler and a
non-prevented event. -/
theorem claim_C1_witness :
    useSelectItemOnClick (some "Apple") none none
      (some ⟨"Orange", true⟩) none ⟨false, 0⟩
      = [Effect.setValue "Apple", Effect.hide] :=
  claim_C1_click_sets_value_then_hides "Apple" ⟨"Orange", true⟩ none
    ⟨false, 0⟩ (by rfl)

/-- Claim C2: if the caller click handler marks the event default-prevented,
neither `setValue` nor `hide` is dispatched, for every configuration of value,
predicates and state; the handler itself runs first (the dispatcher consults
only the event as returned by the handler). -/
theorem claim_C2_default_prevented_cancels
    (value : Option String)
    (hideOnClick setValueOnClick : Option BooleanOrCallback)
    (state : Option SelectState)
    (h : Option (MouseEvent → MouseEvent)) (ev : MouseEvent)
    (hp : (runHandler h ev).defaultPrevented = true) :
    useSelectItemOnClick value hideOnClick setValueOnClick state h ev = [] := by
  simp [useSelectItemOnClick, onClick, hp]

/-- Witness for C2: a handler that prevents default cancels both effects even
with both predicates overridden to true and a bound state. -/
theorem claim_C2_witness :
    useSelectItemOnClick (some "Apple")
      (some (BooleanOrCallback.bool true)) (some (BooleanOrCallback.bool true))
      (some ⟨"Orange", true⟩)
      (some fun e => { e with defaultPrevented := true }) ⟨false, 0⟩ = [] :=
  claim_C2_default_prevented_cancels (some "Apple")
    (some (BooleanOrCallback.bool true)) (some (BooleanOrCallback.bool true))
    (some ⟨"Orange", true⟩)
    (some fun e => { e with defaultPrevented := true }) ⟨false, 0⟩ (by rfl)

/-- Claim C3: the role resolver is a pure function of the popup's configured
role: listbox ↦ option, tree ↦ treeitem, grid ↦ gridcell, and any other or
absent popup role yields no role — `getItemRole` agrees with the fixed table
stated by the spec on every input. -/
theorem claim_C3_role_resolver (r : Option String) :
    getItemRole r = roleResolverSpec r := by
  cases r with
  | none => rfl
  | some s =>
    by_cases h1 : s = "listbox"
    · simp [getItemRole, roleResolverSpec, itemRoleByPopupRole, h1]
    by_cases h2 : s = "tree"
    · simp [getItemRole, roleResolverSpec, itemRoleByPopupRole, h1, h2]
    by_cases h3 : s = "grid"
    · simp [getItemRole, roleResolverSpec, itemRoleByPopupRole, h1, h2, h3]
    · simp [getItemRole, roleResolverSpec, itemRoleByPopupRole, h1, h2, h3]

/-- Claim C4: for every configured value and every shared-state value, the
selection flag is true exactly when the configured value is present and equal
to the shared-state value, and it is false whenever the configured value is
absent, regardless of the state (bound or not). -/
theorem claim_C4_isSelected_iff_present_and_equal
    (v : Option String) (s : SelectState) (st : Option SelectState) :
    isSelected v (some s) = (v == some s.value) ∧
    isSelected none st = false := by
  constructor
  · cases v <;> rfl
  · cases st <;> rfl

/-- Claim C5: the descriptor builder yields a record whose `value` field is
the configured value when `disabled = false` and is absent when
`disabled = true` regardless of the configured value; and a caller-supplied
transform is applied to the already-adjusted record, wrapping rather than
replacing the built-in adjustment. -/
theorem claim_C5_getItem_descriptor
    (item : Item) (v : Option String) (d : Bool) (f : Item → Item) :
    (getItem false v none item).value = v ∧
    (getItem true v none item).value = none ∧
    getItem d v (some f) item
      = f { item with value := if d then none else v } :=
  ⟨rfl, rfl, rfl⟩

/-- Claim C6: for every click on an item with no configured value and no
overrides of `setValueOnClick` or `hideOnClick`, neither `setValue` nor `hide`
is dispatched, because both options default to `value != null`, which is false
here. -/
theorem claim_C6_no_value_no_effects
    (state : Option SelectState)
    (h : Option (MouseEvent → MouseEvent)) (ev : MouseEvent) :
    useSelectItemOnClick none none none state h ev = [] := by
  cases hd : (runHandler h ev).defaultPrevented <;>
    cases state <;>
      simp [useSelectItemOnClick, onClick, useBooleanEventCallback, hd]

/-- Claim C7: with no shared state bound, the click dispatcher produces no
effect for any configuration, value, handler or event — `setValue` and `hide`
are silently skipped and the item degrades to a stateless clickable
element. -/
theorem claim_C7_no_state_no_effects
    (value : Option String)
    (hideOnClick setValueOnClick : Option BooleanOrCallback)
    (h : Option (MouseEvent → MouseEvent)) (ev : MouseEvent) :
    useSelectItemOnClick value hideOnClick setValueOnClick none h ev = [] := by
  cases hd : (runHandler h ev).defaultPrevented <;>
    cases value <;>
      simp [useSelectItemOnClick, onClick, useBooleanEventCallback, hd]

/-- Claim C8: the effective hover guard activates exactly when the configured
`focusOnHover` predicate accepts the event and the popup is mounted; with
`mounted = false` (or no state bound) activation is suppressed even when the
predicate returns true. -/
theorem claim_C8_focusOnHover_guard
    (p : MouseEvent → Bool) (s : SelectState) (ev : MouseEvent) :
    focusOnHover p (some s) ev = (p ev && s.mounted) ∧
    focusOnHover p none ev = false := by
  constructor
  · cases hp : p ev <;> simp [focusOnHover, hp]
  · cases hp : p ev <;> simp [focusOnHover, hp]

/-- Claim C9: on a non-prevented click with state bound, `hide` is dispatched
exactly when the `hideOnClick` predicate accepts the (handler-processed)
event, independently of the `setValueOnClick` outcome; in particular, an item
with no configured value but `hideOnClick` overridden to true still hides the
popup without selecting anything. -/
theorem claim_C9_hide_independent_of_setValue
    (value : Option String) (setOn hideOn : MouseEvent → Bool)
    (s : SelectState) (h : Option (MouseEvent → MouseEvent)) (ev : MouseEvent)
    (hnp : (runHandler h ev).defaultPrevented = false) :
    (onClick h setOn hideOn value (some s) ev).contains Effect.hide
      = hideOn (runHandler h ev) ∧
    useSelectItemOnClick none (some (BooleanOrCallback.bool true)) none
      (some s) h ev = [Effect.hide] := by
  constructor
  · cases value <;>
      cases hs : setOn (runHandler h ev) <;>
        cases hh : hideOn (runHandler h ev) <;>
          simp [onClick, hnp, hs, hh, beq_iff_eq]
  · simp [useSelectItemOnClick, onClick, useBooleanEventCallback, hnp]

/-- Witness for C9: a concrete non-prevented click with state bound, a
rejecting `setValueOnClick` and an accepting `hideOnClick`. -/
theorem claim_C9_witness :
    (onClick none (fun _ => false) (fun _ => true) (some "Apple")
        (some ⟨"Orange", true⟩) ⟨false, 0⟩).contains Effect.hide
      = (fun _ : MouseEvent => true) (runHandler none ⟨false, 0⟩) ∧
    useSelectItemOnClick none (some (BooleanOrCallback.bool true)) none
      (some ⟨"Orange", true⟩) none ⟨false, 0⟩ = [Effect.hide] :=
  claim_C9_hide_independent_of_setValue (some "Apple") (fun _ => false)
    (fun _ => true) ⟨"Orange", true⟩ none ⟨false, 0⟩ (by rfl)

/-- Claim C10: `disabled` has no effect on the selection flag — an item whose
configured value equals the shared-state value is selected regardless of
`disabled` (the flag is not an input of `isSelected`), even though the
descriptor built for a disabled item has its `value` field cleared. -/
theorem claim_C10_disabled_still_selected
    (v : String) (m : Bool) (item : Item) :
    isSelected (some v) (some ⟨v, m⟩) = true ∧
    (getItem true (some v) none item).value = none := by
  constructor
  · simp [isSelected]
  · rfl

end SelectItem
